import Mathlib

/-!
Verification of the watermark placement and frame-compositing core of
`soramarker` (src/src/App.jsx), shallowly embedded over ℚ.

The file has two implementations of the schedule: an FFmpeg
`overlay` filter expression (lines 98-104) and a canvas-based
`video.process` callback (lines 277-334).  Timestamps and pixel
coordinates are JavaScript doubles; we model them as rationals, and the
JavaScript `%` operator (also FFmpeg's `mod()`), which is the remainder
of truncated division, as `fmod` below.
-/

namespace Soramarker

/-- Truncation toward zero on ℚ, the rounding used by the JavaScript `%`
operator and C `fmod`. -/
def trunc (q : ℚ) : ℤ := if 0 ≤ q then ⌊q⌋ else ⌈q⌉

/-- The JavaScript remainder `a % b` (equally FFmpeg's `mod(a,b)`):
`a - b * trunc (a / b)`.  Its result has the sign of the dividend. -/
def fmod (a b : ℚ) : ℚ := a - b * (trunc (a / b) : ℚ)

/-- Schedule engine of the `video.process` callback
(src/src/App.jsx lines 301-328): `cycle = t % 15`, then an if/else
chain over `cycle` choosing the watermark position `(x, y)` from the
canvas size `W, H` and watermark draw size `w, h`. -/
def place (t W H w h : ℚ) : ℚ × ℚ :=
  let cycle := fmod t 15
  if cycle < 3 then (W - 5 * w / 4, (H - h) / 2)
  else if cycle < 6 then (w / 4, H - 3 * h / 2)
  else if cycle < 9 then (W - 5 * w / 4, h / 2)
  else if cycle < 12 then (W - 5 * w / 4, H - 3 * h / 2)
  else (w / 4, h / 2)

/-- The `x` expression of the FFmpeg overlay filter
(src/src/App.jsx line 102):
`if(lt(mod(t,15),3),W-5*w/4,if(lt(mod(t,15),6),w/4,if(lt(mod(t,15),9),W-5*w/4,if(lt(mod(t,15),12),W-5*w/4,w/4))))`. -/
def overlayX (t W w : ℚ) : ℚ :=
  if fmod t 15 < 3 then W - 5 * w / 4
  else if fmod t 15 < 6 then w / 4
  else if fmod t 15 < 9 then W - 5 * w / 4
  else if fmod t 15 < 12 then W - 5 * w / 4
  else w / 4

/-- The `y` expression of the FFmpeg overlay filter
(src/src/App.jsx line 103):
`if(lt(mod(t,15),3),(H-h)/2,if(lt(mod(t,15),6),H-3*h/2,if(lt(mod(t,15),9),h/2,if(lt(mod(t,15),12),H-3*h/2,h/2))))`. -/
def overlayY (t H h : ℚ) : ℚ :=
  if fmod t 15 < 3 then (H - h) / 2
  else if fmod t 15 < 6 then H - 3 * h / 2
  else if fmod t 15 < 9 then h / 2
  else if fmod t 15 < 12 then H - 3 * h / 2
  else h / 2

/-- For a nonnegative dividend, the JavaScript remainder is the
floor-based remainder. -/
theorem fmod_eq_floor (t : ℚ) (ht : 0 ≤ t) :
    fmod t 15 = t - 15 * (⌊t / 15⌋ : ℚ) := by
  unfold fmod trunc
  rw [if_pos (by positivity : (0 : ℚ) ≤ t / 15)]

/-- The remainder of a nonnegative dividend by 15 is nonnegative. -/
theorem fmod_nonneg (t : ℚ) (ht : 0 ≤ t) : 0 ≤ fmod t 15 := by
  rw [fmod_eq_floor t ht]
  have h := Int.floor_le (t / 15)
  have h15 : (15 : ℚ) * (t / 15) = t := by ring
  nlinarith

/-- The remainder of a nonnegative dividend by 15 is below 15. -/
theorem fmod_lt (t : ℚ) (ht : 0 ≤ t) : fmod t 15 < 15 := by
  rw [fmod_eq_floor t ht]
  have h := Int.lt_floor_add_one (t / 15)
  have h15 : (15 : ℚ) * (t / 15) = t := by ring
  nlinarith

/-- For a nonnegative dividend the JavaScript remainder by 15 is
15-periodic. -/
theorem fmod_add_15 (t : ℚ) (ht : 0 ≤ t) : fmod (t + 15) 15 = fmod t 15 := by
  rw [fmod_eq_floor t ht, fmod_eq_floor (t + 15) (by linarith)]
  have hdiv : (t + 15) / 15 = t / 15 + 1 := by ring
  rw [hdiv, Int.floor_add_one]
  push_cast
  ring

/-- For a negative dividend, the JavaScript remainder by 15 is
nonpositive (it has the sign of the dividend). -/
theorem fmod_nonpos_of_neg (t : ℚ) (ht : t < 0) : fmod t 15 ≤ 0 := by
  unfold fmod trunc
  by_cases h : 0 ≤ t / 15
  · rw [if_pos h]
    have h0 : t / 15 = 0 := le_antisymm (by linarith [div_nonneg (le_of_lt (by linarith : (0:ℚ) < -t)) (by norm_num : (0:ℚ) ≤ 15)]) h
    · rw [h0]
      norm_num
      linarith
  · rw [if_neg h]
    have hc := Int.le_ceil (t / 15)
    have h15 : (15 : ℚ) * (t / 15) = t := by ring
    nlinarith [hc]

/-- A dividend already in `[0, 15)` is its own remainder. -/
theorem fmod_of_lt (t : ℚ) (h0 : 0 ≤ t) (h15 : t < 15) : fmod t 15 = t := by
  rw [fmod_eq_floor t h0]
  have : ⌊t / 15⌋ = 0 := by
    rw [Int.floor_eq_zero_iff]
    constructor
    · positivity
    · rw [div_lt_one (by norm_num : (0:ℚ) < 15)]
      simpa using h15
  rw [this]
  push_cast
  ring

/-- The watermark image asset (`watermarkImage` in the source), with its
natural dimensions. -/
structure WatermarkAsset where
  width : ℚ
  height : ℚ
deriving DecidableEq

/-- One decoded video sample handed to `video.process`: display
dimensions and a timestamp in seconds. -/
structure Frame where
  displayWidth : ℚ
  displayHeight : ℚ
  timestamp : ℚ
deriving DecidableEq

/-- The compositing `OffscreenCanvas`, as far as geometry is concerned:
it is created from the first sample's display size and kept across
invocations of the callback. -/
structure Canvas where
  width : ℚ
  height : ℚ
deriving DecidableEq

/-- The rectangle passed to `ctx.drawImage(watermarkImage, x, y, wmWidth,
wmHeight)`. -/
structure DrawRect where
  x : ℚ
  y : ℚ
  w : ℚ
  h : ℚ
deriving DecidableEq

/-- Geometry of one invocation of the `video.process` callback
(src/src/App.jsx lines 277-334), on the assumption that canvas
construction succeeds: if no canvas exists yet it takes the first
sample's display size, otherwise the existing one is reused; then
`wmWidth = ctx.canvas.width / 4`,
`wmHeight = (watermarkImage.height / watermarkImage.width) * wmWidth`,
and the position comes from the schedule on `t = sample.timestamp`.
Returns the canvas now held in `ctx` together with the watermark draw
rectangle.  The construction itself,
`new OffscreenCanvas(sample.displayWidth, sample.displayHeight)`, has
WebIDL `EnforceRange`-checked unsigned parameters and raises a
TypeError on negative dimensions; it is modelled by
`newOffscreenCanvas` below, and `processFrameChecked` is the full
callback including that check.  This geometry-only function is
faithful on the dimensions the constructor accepts — decoded video
samples have integral nonnegative display sizes, on which the WebIDL
conversion is the identity. -/
def processFrame (wm : WatermarkAsset) (ctx : Option Canvas) (sample : Frame) :
    Canvas × DrawRect :=
  let canvas : Canvas :=
    match ctx with
    | none => { width := sample.displayWidth, height := sample.displayHeight }
    | some c => c
  let wmWidth := canvas.width / 4
  let wmHeight := wm.height / wm.width * wmWidth
  let t := sample.timestamp
  let xy := place t canvas.width canvas.height wmWidth wmHeight
  (canvas, { x := xy.1, y := xy.2, w := wmWidth, h := wmHeight })

/-- Error raised by the `OffscreenCanvas` constructor: its WebIDL
signature takes `EnforceRange`-checked `unsigned long long`
dimensions, so a negative argument (after truncation toward zero)
raises a TypeError instead of creating a canvas. -/
inductive CanvasError
  | typeError
deriving DecidableEq

/-- The `new OffscreenCanvas(width, height)` constructor
(src/src/App.jsx lines 280-283): the WebIDL `EnforceRange` unsigned
conversion truncates each argument toward zero and raises a TypeError
when the truncated value is negative; otherwise the canvas stores the
converted (truncated) dimensions.  Decoded video samples have integral
display dimensions, for which the truncation is the identity. -/
def newOffscreenCanvas (width height : ℚ) : Except CanvasError Canvas :=
  if trunc width < 0 ∨ trunc height < 0 then Except.error CanvasError.typeError
  else Except.ok { width := (trunc width : ℚ), height := (trunc height : ℚ) }

/-- One full invocation of the `video.process` callback including
canvas construction (src/src/App.jsx lines 277-334): when no canvas
exists yet, `new OffscreenCanvas(sample.displayWidth,
sample.displayHeight)` runs first and its TypeError on negative
dimensions propagates out of the callback before any compositing;
otherwise, and after a successful construction, the geometry is that
of `processFrame`. -/
def processFrameChecked (wm : WatermarkAsset) (ctx : Option Canvas)
    (sample : Frame) : Except CanvasError (Canvas × DrawRect) :=
  match ctx with
  | none =>
    match newOffscreenCanvas sample.displayWidth sample.displayHeight with
    | Except.error e => Except.error e
    | Except.ok c => Except.ok (processFrame wm (some c) sample)
  | some c => Except.ok (processFrame wm (some c) sample)

/-- Run the callback over a list of samples, threading the canvas state
exactly as the closure over `ctx` does in the source. -/
def processList (wm : WatermarkAsset) (ctx : Option Canvas) :
    List Frame → List DrawRect
  | [] => []
  | f :: fs =>
    let o := processFrame wm ctx f
    o.2 :: processList wm (some o.1) fs

/-- The whole per-frame pipeline of one `applyWatermark` run: the
canvas starts out absent (`let ctx = null`) and every sample is
processed in order. -/
def processAll (wm : WatermarkAsset) (frames : List Frame) : List DrawRect :=
  processList wm none frames

/-- Outcome of one `applyWatermark` run, as far as the conversion goes:
either the conversion completed with the per-frame draw rectangles, or
the run is stuck forever awaiting a promise that never settles. -/
inductive RunOutcome
  | completed (rects : List DrawRect)
  | stalled
deriving DecidableEq

/-- The sequencing of `applyWatermark` around the watermark load
(src/src/App.jsx lines 252-256): the code awaits
`new Promise((resolve) => { watermarkImage.onload = () => resolve(); })`,
which settles only when the image fires `onload`.  If loading fails the
promise is never resolved nor rejected, so execution never reaches
`Conversion.init` and no error reaches the surrounding catch: the run
stalls.  On success the conversion processes every frame. -/
def applyWatermarkRun (wm : WatermarkAsset) (loadOk : Bool)
    (frames : List Frame) : RunOutcome :=
  if loadOk then .completed (processAll wm frames) else .stalled

/-- Membership of a cycle value in the `i`-th of the five schedule
intervals `[0,3), [3,6), [6,9), [9,12), [12,15)`. -/
def inBucket (i : Fin 5) (c : ℚ) : Prop :=
  3 * (i.val : ℚ) ≤ c ∧ c < 3 * (i.val : ℚ) + 3

instance (i : Fin 5) (c : ℚ) : Decidable (inBucket i c) :=
  inferInstanceAs (Decidable (3 * (i.val : ℚ) ≤ c ∧ c < 3 * (i.val : ℚ) + 3))

/-- A dividend in `(-15, 0)` is its own remainder: negative dividends
give negative remainders under the JavaScript `%`. -/
theorem fmod_neg_of_gt (t : ℚ) (h0 : -15 < t) (h1 : t < 0) : fmod t 15 = t := by
  unfold fmod trunc
  rw [if_neg (by
    intro h
    nlinarith [div_nonneg h (by norm_num : (0:ℚ) ≤ 15)] : ¬ 0 ≤ t / 15)]
  have hc : ⌈t / 15⌉ = 0 := by
    rw [Int.ceil_eq_zero_iff]
    constructor
    · rw [lt_div_iff₀ (by norm_num : (0:ℚ) < 15)]
      linarith
    · exact le_of_lt (div_neg_of_neg_of_pos h1 (by norm_num))
  rw [hc]
  push_cast
  ring

/-- Every cycle value in `[0, 15)` lies in one of the five schedule
intervals. -/
theorem bucket_exists (c : ℚ) (h0 : 0 ≤ c) (h15 : c < 15) :
    ∃ i : Fin 5, inBucket i c := by
  simp only [inBucket]
  rcases lt_or_le c 3 with h | h3
  · exact ⟨⟨0, by norm_num⟩, by norm_num; constructor <;> linarith⟩
  rcases lt_or_le c 6 with h | h6
  · exact ⟨⟨1, by norm_num⟩, by norm_num; constructor <;> linarith⟩
  rcases lt_or_le c 9 with h | h9
  · exact ⟨⟨2, by norm_num⟩, by norm_num; constructor <;> linarith⟩
  rcases lt_or_le c 12 with h | h12
  · exact ⟨⟨3, by norm_num⟩, by norm_num; constructor <;> linarith⟩
  · exact ⟨⟨4, by norm_num⟩, by norm_num; constructor <;> linarith⟩

/-- The five schedule intervals are pairwise disjoint. -/
theorem bucket_unique (c : ℚ) (i j : Fin 5) (hi : inBucket i c)
    (hj : inBucket j c) : i = j := by
  obtain ⟨hi1, hi2⟩ := hi
  obtain ⟨hj1, hj2⟩ := hj
  have h1 : (i.val : ℚ) < j.val + 1 := by linarith
  have h2 : (j.val : ℚ) < i.val + 1 := by linarith
  have n1 : i.val < j.val + 1 := by exact_mod_cast h1
  have n2 : j.val < i.val + 1 := by exact_mod_cast h2
  exact Fin.ext (by omega)

/-- Each schedule interval is contained in `[0, 15)`. -/
theorem bucket_mem_range (c : ℚ) (i : Fin 5) (h : inBucket i c) :
    0 ≤ c ∧ c < 15 := by
  obtain ⟨h1, h2⟩ := h
  have hv : (i.val : ℚ) ≤ 4 := by
    have hlt := i.isLt
    exact_mod_cast Nat.lt_succ_iff.mp hlt
  have hz : (0 : ℚ) ≤ (i.val : ℚ) := by positivity
  constructor <;> linarith

/-- With an existing canvas the callback leaves it unchanged. -/
theorem processFrame_fst (wm : WatermarkAsset) (c : Canvas) (f : Frame) :
    (processFrame wm (some c) f).1 = c := rfl

/-- Once the canvas exists, processing a list of samples is an
independent map over the samples. -/
theorem processList_some_eq_map (wm : WatermarkAsset) (c : Canvas)
    (gs : List Frame) :
    processList wm (some c) gs =
      gs.map fun g => (processFrame wm (some c) g).2 := by
  induction gs with
  | nil => rfl
  | cons g gs ih =>
    simp only [processList, List.map_cons]
    exact congrArg _ ih

/-- On a canvas of nonnegative width, the callback's draw rectangle has
nonnegative sizes, and a zero-width canvas gives a zero-size draw. -/
theorem processFrame_rect_nonneg (wm : WatermarkAsset) (c0 : Canvas)
    (f : Frame) (hr : 0 ≤ wm.height / wm.width) (hw0 : 0 ≤ c0.width)
    (c : Canvas) (r : DrawRect)
    (hok : processFrame wm (some c0) f = (c, r)) :
    0 ≤ r.w ∧ 0 ≤ r.h ∧ (c.width = 0 → r.w = 0 ∧ r.h = 0) := by
  have hcc : (processFrame wm (some c0) f).1 = c := by rw [hok]
  have hrr : (processFrame wm (some c0) f).2 = r := by rw [hok]
  have hc : c = c0 := by
    rw [← hcc]
    rfl
  have hrw : r.w = c0.width / 4 := by
    rw [← hrr]
    rfl
  have hrh : r.h = wm.height / wm.width * (c0.width / 4) := by
    rw [← hrr]
    rfl
  have hwn : 0 ≤ r.w := by
    rw [hrw]
    exact div_nonneg hw0 (by norm_num)
  refine ⟨hwn, ?_, ?_⟩
  · rw [hrh]
    exact mul_nonneg hr (div_nonneg hw0 (by norm_num))
  · intro hz
    rw [hc] at hz
    constructor
    · rw [hrw, hz, zero_div]
    · rw [hrh, hz, zero_div, mul_zero]

/-- Claim C1: for every timestamp `t ≥ 0` and geometry `W H w h`, the
schedule selects its bucket by `cycle = t % 15` with half-open,
lower-bound-inclusive intervals, and the bucket-to-formula assignment
is exactly A `(W - 5w/4, (H-h)/2)`, B `(w/4, H - 3h/2)`, C
`(W - 5w/4, h/2)`, D `(W - 5w/4, H - 3h/2)`, E `(w/4, h/2)`; in
particular `t = 2.999` uses bucket A's formula and `t = 3.0` uses
bucket B's. -/
theorem C1_bucket_assignment (t W H w h : ℚ) (ht : 0 ≤ t) :
    (fmod t 15 < 3 → place t W H w h = (W - 5 * w / 4, (H - h) / 2)) ∧
    (3 ≤ fmod t 15 → fmod t 15 < 6 → place t W H w h = (w / 4, H - 3 * h / 2)) ∧
    (6 ≤ fmod t 15 → fmod t 15 < 9 → place t W H w h = (W - 5 * w / 4, h / 2)) ∧
    (9 ≤ fmod t 15 → fmod t 15 < 12 →
      place t W H w h = (W - 5 * w / 4, H - 3 * h / 2)) ∧
    (12 ≤ fmod t 15 → place t W H w h = (w / 4, h / 2)) ∧
    place (2999 / 1000) W H w h = (W - 5 * w / 4, (H - h) / 2) ∧
    place 3 W H w h = (w / 4, H - 3 * h / 2) := by
  refine ⟨?_, ?_, ?_, ?_, ?_, ?_, ?_⟩
  · intro h1
    simp only [place]
    rw [if_pos h1]
  · intro h3 h6
    simp only [place]
    rw [if_neg (not_lt.mpr h3), if_pos h6]
  · intro h6 h9
    simp only [place]
    rw [if_neg (not_lt.mpr (by linarith)), if_neg (not_lt.mpr h6), if_pos h9]
  · intro h9 h12
    simp only [place]
    rw [if_neg (not_lt.mpr (by linarith)), if_neg (not_lt.mpr (by linarith)),
      if_neg (not_lt.mpr h9), if_pos h12]
  · intro h12
    simp only [place]
    rw [if_neg (not_lt.mpr (by linarith)), if_neg (not_lt.mpr (by linarith)),
      if_neg (not_lt.mpr (by linarith)), if_neg (not_lt.mpr h12)]
  · have e : fmod (2999 / 1000 : ℚ) 15 = 2999 / 1000 :=
      fmod_of_lt _ (by norm_num) (by norm_num)
    simp only [place, e]
    norm_num
  · have e : fmod (3 : ℚ) 15 = 3 := fmod_of_lt _ (by norm_num) (by norm_num)
    simp only [place, e]
    norm_num

/-- Witness for C1 at `t = 4` with the 1280x720 geometry. -/
theorem C1_bucket_assignment_witness :
    (fmod 4 15 < 3 →
      place 4 1280 720 320 180 = (1280 - 5 * 320 / 4, (720 - 180) / 2)) ∧
    (3 ≤ fmod 4 15 → fmod 4 15 < 6 →
      place 4 1280 720 320 180 = (320 / 4, 720 - 3 * 180 / 2)) ∧
    (6 ≤ fmod 4 15 → fmod 4 15 < 9 →
      place 4 1280 720 320 180 = (1280 - 5 * 320 / 4, 180 / 2)) ∧
    (9 ≤ fmod 4 15 → fmod 4 15 < 12 →
      place 4 1280 720 320 180 = (1280 - 5 * 320 / 4, 720 - 3 * 180 / 2)) ∧
    (12 ≤ fmod 4 15 → place 4 1280 720 320 180 = (320 / 4, 180 / 2)) ∧
    place (2999 / 1000) 1280 720 320 180 = (1280 - 5 * 320 / 4, (720 - 180) / 2) ∧
    place 3 1280 720 320 180 = (320 / 4, 720 - 3 * 180 / 2) :=
  C1_bucket_assignment 4 1280 720 320 180 (by norm_num)

/-- Counterexample to C2 as stated for all `t`: at `t = -1` the
JavaScript remainder is `-1`, the first branch fires (bucket A), while
`t + 15 = 14` falls in bucket E, so `place` is not 15-periodic at
negative timestamps. -/
theorem C2_counterexample :
    place (-1 : ℚ) 1280 720 320 180 ≠ place ((-1 : ℚ) + 15) 1280 720 320 180 := by
  have h1 : fmod (-1 : ℚ) 15 = -1 := fmod_neg_of_gt _ (by norm_num) (by norm_num)
  have h2 : ((-1 : ℚ) + 15) = 14 := by norm_num
  rw [h2]
  simp only [place, h1]
  norm_num [fmod, trunc]

/-- Claim C2, amended to nonnegative timestamps: for every `t ≥ 0` and
every geometry, `place (t + 15)` equals `place t`. -/
theorem C2_periodicity (t W H w h : ℚ) (ht : 0 ≤ t) :
    place t W H w h = place (t + 15) W H w h := by
  simp only [place]
  rw [fmod_add_15 t ht]

/-- Witness for C2 at `t = 3/2`. -/
theorem C2_periodicity_witness :
    place (3 / 2 : ℚ) 1280 720 320 180 =
      place ((3 / 2 : ℚ) + 15) 1280 720 320 180 :=
  C2_periodicity (3 / 2) 1280 720 320 180 (by norm_num)

/-- Counterexample to C3 as stated for every timestamp: at `t = -1` the
JavaScript remainder is `-1`, which lies in none of the five intervals
`[0,3), ..., [12,15)`. -/
theorem C3_counterexample : ¬ ∃ i : Fin 5, inBucket i (fmod (-1 : ℚ) 15) := by
  rintro ⟨i, hi⟩
  have hr := (bucket_mem_range _ i hi).1
  have he : fmod (-1 : ℚ) 15 = -1 := fmod_neg_of_gt _ (by norm_num) (by norm_num)
  rw [he] at hr
  norm_num at hr

/-- Claim C3, amended to nonnegative timestamps: for every `t ≥ 0` the
cycle value `t % 15` lies in exactly one of the five intervals; the
intervals are pairwise disjoint and their union is exactly `[0, 15)`. -/
theorem C3_partition (t : ℚ) (ht : 0 ≤ t) :
    (∃! i : Fin 5, inBucket i (fmod t 15)) ∧
    (∀ c : ℚ, (0 ≤ c ∧ c < 15) ↔ ∃ i : Fin 5, inBucket i c) ∧
    (∀ i j : Fin 5, ∀ c : ℚ, inBucket i c → inBucket j c → i = j) := by
  refine ⟨?_, ?_, fun i j c => bucket_unique c i j⟩
  · obtain ⟨i, hi⟩ := bucket_exists _ (fmod_nonneg t ht) (fmod_lt t ht)
    exact ⟨i, hi, fun j hj => bucket_unique _ j i hj hi⟩
  · intro c
    constructor
    · rintro ⟨h0, h15⟩
      exact bucket_exists c h0 h15
    · rintro ⟨i, hi⟩
      exact bucket_mem_range c i hi

/-- Witness for C3 at `t = 7`. -/
theorem C3_partition_witness :
    (∃! i : Fin 5, inBucket i (fmod 7 15)) ∧
    (∀ c : ℚ, (0 ≤ c ∧ c < 15) ↔ ∃ i : Fin 5, inBucket i c) ∧
    (∀ i j : Fin 5, ∀ c : ℚ, inBucket i c → inBucket j c → i = j) :=
  C3_partition 7 (by norm_num)

/-- Counterexample to C4 as stated: the canvas is created once, at the
first sample, so on a variable-resolution source the second frame's
draw width is the first frame's width over 4, not its own width over
4. -/
theorem C4_counterexample :
    (processAll ⟨100, 50⟩ [⟨1280, 720, 0⟩, ⟨640, 360, 1⟩]).map DrawRect.w ≠
      [1280 / 4, 640 / 4] := by
  norm_num [processAll, processList, processFrame, place, fmod, trunc]

/-- Claim C4, amended: the draw width is the compositing canvas's width
over 4, where the canvas keeps the first frame's dimensions (equal to
the frame's own width over 4 on the first frame, hence on every frame
of a constant-resolution source), and the aspect ratio of the draw
rectangle equals the watermark's natural aspect ratio whenever the
widths involved are nonzero. -/
theorem C4_scale_amended (wm : WatermarkAsset) (ctx : Option Canvas) (f : Frame)
    (hc : (processFrame wm ctx f).1.width ≠ 0) :
    (processFrame wm ctx f).2.w = (processFrame wm ctx f).1.width / 4 ∧
    (ctx = none → (processFrame wm ctx f).2.w = f.displayWidth / 4) ∧
    (processFrame wm ctx f).2.h / (processFrame wm ctx f).2.w =
      wm.height / wm.width := by
  have hw : (processFrame wm ctx f).2.w = (processFrame wm ctx f).1.width / 4 := by
    cases ctx <;> rfl
  have hh : (processFrame wm ctx f).2.h =
      wm.height / wm.width * (processFrame wm ctx f).2.w := by
    cases ctx <;> rfl
  refine ⟨hw, ?_, ?_⟩
  · intro hctx
    subst hctx
    rfl
  · rw [hh, hw]
    exact mul_div_cancel_right₀ _ (div_ne_zero hc (by norm_num))

/-- Witness for C4 on a 1280x720 first frame and a 100x50 watermark. -/
theorem C4_scale_amended_witness :
    (processFrame ⟨100, 50⟩ none ⟨1280, 720, 0⟩).2.w =
      (processFrame ⟨100, 50⟩ none ⟨1280, 720, 0⟩).1.width / 4 ∧
    ((none : Option Canvas) = none →
      (processFrame ⟨100, 50⟩ none ⟨1280, 720, 0⟩).2.w = (1280 : ℚ) / 4) ∧
    (processFrame ⟨100, 50⟩ none ⟨1280, 720, 0⟩).2.h /
      (processFrame ⟨100, 50⟩ none ⟨1280, 720, 0⟩).2.w = (50 : ℚ) / 100 :=
  C4_scale_amended ⟨100, 50⟩ none ⟨1280, 720, 0⟩ (by norm_num [processFrame])

/-- Claim C5: with `W = 1280, H = 720, w = 320, h = 180`, the schedule
gives `(880, 270)` at `t = 1.5`, `(80, 450)` at `t = 4`, and at
`t = 16.5` again `(880, 270)`, identical to the `t = 1.5` result. -/
theorem C5_scenarios :
    place (3 / 2 : ℚ) 1280 720 320 180 = (880, 270) ∧
    place (4 : ℚ) 1280 720 320 180 = (80, 450) ∧
    place (33 / 2 : ℚ) 1280 720 320 180 = (880, 270) ∧
    place (33 / 2 : ℚ) 1280 720 320 180 = place (3 / 2 : ℚ) 1280 720 320 180 := by
  have h1 : place (3 / 2 : ℚ) 1280 720 320 180 = (880, 270) := by
    have e : fmod (3 / 2 : ℚ) 15 = 3 / 2 := fmod_of_lt _ (by norm_num) (by norm_num)
    simp only [place, e]
    norm_num
  have h2 : place (4 : ℚ) 1280 720 320 180 = (80, 450) := by
    have e : fmod (4 : ℚ) 15 = 4 := fmod_of_lt _ (by norm_num) (by norm_num)
    simp only [place, e]
    norm_num
  have h3 : place (33 / 2 : ℚ) 1280 720 320 180 = (880, 270) := by
    have e : fmod (33 / 2 : ℚ) 15 = 3 / 2 := by
      rw [show (33 / 2 : ℚ) = 3 / 2 + 15 by norm_num, fmod_add_15 (3 / 2) (by norm_num)]
      exact fmod_of_lt _ (by norm_num) (by norm_num)
    simp only [place, e]
    norm_num
  exact ⟨h1, h2, h3, h3.trans h1.symm⟩

/-- Claim C6, what the code actually does: when the watermark image
fails to load, the awaited promise (which only installs an `onload`
callback, no `onerror` and no `reject`) never settles, so the run
stalls with no frames processed and no error delivered — it does not
surface an `AssetLoadError` to the caller. -/
theorem C6_load_failure_stalls (wm : WatermarkAsset) (frames : List Frame) :
    applyWatermarkRun wm false frames = RunOutcome.stalled := rfl

/-- Counterexample to C7 as stated: a frame with zero dimensions is not
rejected before compositing — `new OffscreenCanvas(0, 0)` succeeds and
the frame is composited (with a zero-size draw rectangle) instead of
the run aborting. -/
theorem C7_zero_not_rejected :
    processFrameChecked ⟨100, 50⟩ none ⟨0, 0, 0⟩ =
      Except.ok (⟨0, 0⟩, ⟨0, 0, 0, 0⟩) := by
  norm_num [processFrameChecked, newOffscreenCanvas, processFrame, place,
    fmod, trunc]

/-- Claim C7, amended: rejection happens only at canvas creation — the
`OffscreenCanvas` constructor's range-checked unsigned parameters raise
a TypeError exactly on negative (after truncation) first-frame
dimensions, before any compositing — while a zero-dimension frame is
not rejected and is composited with a zero-size draw.  The geometry
never divides by a frame dimension (the only division is by the
watermark's natural width), and every composited frame gets a
nonnegative draw size whenever the watermark's aspect ratio and the
inherited canvas width are nonnegative: no negative-size draw is ever
issued. -/
theorem C7_constructor_amended (wm : WatermarkAsset) (ctx : Option Canvas)
    (f : Frame) (hr : 0 ≤ wm.height / wm.width)
    (hctx : ∀ c, ctx = some c → 0 ≤ c.width) :
    (ctx = none → (trunc f.displayWidth < 0 ∨ trunc f.displayHeight < 0) →
      processFrameChecked wm ctx f = Except.error CanvasError.typeError) ∧
    (∀ e, processFrameChecked wm ctx f = Except.error e →
      ctx = none ∧ (trunc f.displayWidth < 0 ∨ trunc f.displayHeight < 0)) ∧
    (∀ c r, processFrameChecked wm ctx f = Except.ok (c, r) →
      0 ≤ r.w ∧ 0 ≤ r.h ∧ (c.width = 0 → r.w = 0 ∧ r.h = 0)) := by
  refine ⟨?_, ?_, ?_⟩
  · intro hnone hneg
    subst hnone
    simp only [processFrameChecked, newOffscreenCanvas]
    rw [if_pos hneg]
  · intro e he
    cases ctx with
    | some c0 =>
      simp only [processFrameChecked] at he
      exact Except.noConfusion he
    | none =>
      by_cases hneg : trunc f.displayWidth < 0 ∨ trunc f.displayHeight < 0
      · exact ⟨rfl, hneg⟩
      · simp only [processFrameChecked, newOffscreenCanvas] at he
        rw [if_neg hneg] at he
        exact Except.noConfusion he
  · intro c r hok
    cases ctx with
    | some c0 =>
      have hw0 : 0 ≤ c0.width := hctx c0 rfl
      simp only [processFrameChecked, Except.ok.injEq] at hok
      exact processFrame_rect_nonneg wm c0 f hr hw0 c r hok
    | none =>
      by_cases hneg : trunc f.displayWidth < 0 ∨ trunc f.displayHeight < 0
      · simp only [processFrameChecked, newOffscreenCanvas] at hok
        rw [if_pos hneg] at hok
        exact Except.noConfusion hok
      · simp only [processFrameChecked, newOffscreenCanvas] at hok
        rw [if_neg hneg] at hok
        simp only [Except.ok.injEq] at hok
        push_neg at hneg
        have hw0 : (0 : ℚ) ≤ (trunc f.displayWidth : ℚ) := by
          exact_mod_cast hneg.1
        exact processFrame_rect_nonneg wm
          ⟨(trunc f.displayWidth : ℚ), (trunc f.displayHeight : ℚ)⟩ f hr hw0 c r hok

/-- Witness for C7 on a 1280x720 first frame and a 100x50 watermark. -/
theorem C7_constructor_amended_witness :
    ((none : Option Canvas) = none →
      (trunc (1280 : ℚ) < 0 ∨ trunc (720 : ℚ) < 0) →
      processFrameChecked ⟨100, 50⟩ none ⟨1280, 720, 0⟩ =
        Except.error CanvasError.typeError) ∧
    (∀ e, processFrameChecked ⟨100, 50⟩ none ⟨1280, 720, 0⟩ = Except.error e →
      (none : Option Canvas) = none ∧
      (trunc (1280 : ℚ) < 0 ∨ trunc (720 : ℚ) < 0)) ∧
    (∀ c r, processFrameChecked ⟨100, 50⟩ none ⟨1280, 720, 0⟩ =
        Except.ok (c, r) →
      0 ≤ r.w ∧ 0 ≤ r.h ∧ (c.width = 0 → r.w = 0 ∧ r.h = 0)) :=
  C7_constructor_amended ⟨100, 50⟩ none ⟨1280, 720, 0⟩ (by norm_num)
    (fun c h => Option.noConfusion h)

/-- Counterexample to C8 as stated: the canvas created at the first
sample is state carried between invocations of the callback — the same
second frame (identical dimensions, watermark and timestamp) receives a
different draw rectangle when the first frame of the run differed. -/
theorem C8_counterexample :
    (processAll ⟨100, 50⟩ [⟨1280, 720, 0⟩, ⟨1280, 720, 1⟩]).getD 1 ⟨0, 0, 0, 0⟩ ≠
      (processAll ⟨100, 50⟩ [⟨640, 360, 0⟩, ⟨1280, 720, 1⟩]).getD 1 ⟨0, 0, 0, 0⟩ := by
  norm_num [processAll, processList, processFrame, place, fmod, trunc]

/-- Claim C8, amended: the pipeline is deterministic, and each frame's
draw rectangle is a pure function of the watermark, of the canvas
created from the first frame's dimensions, and of that frame itself —
but the canvas is internal state shared across invocations, so equal
frames can produce different output across runs with different first
frames. -/
theorem C8_deterministic_amended (wm : WatermarkAsset) (f : Frame)
    (rest : List Frame) :
    processAll wm (f :: rest) =
      (f :: rest).map fun g =>
        (processFrame wm (some ⟨f.displayWidth, f.displayHeight⟩) g).2 := by
  show processList wm none (f :: rest) = _
  simp only [processList, List.map_cons]
  have h1 : (processFrame wm none f).1 =
      (⟨f.displayWidth, f.displayHeight⟩ : Canvas) := rfl
  have h2 : (processFrame wm none f).2 =
      (processFrame wm (some ⟨f.displayWidth, f.displayHeight⟩) f).2 := rfl
  rw [h2, h1, processList_some_eq_map]

/-- Claim C9: for every negative timestamp the JavaScript remainder
`t % 15` is nonpositive, so the first branch `cycle < 3` fires and the
placement is always bucket A's formula; consequently 15-periodicity
fails below zero, e.g. between `t = -2` (bucket A) and `t = 13`
(bucket E). -/
theorem C9_negative_bucket_A (t W H w h : ℚ) (ht : t < 0) :
    place t W H w h = (W - 5 * w / 4, (H - h) / 2) ∧
    place (-2 : ℚ) 1280 720 320 180 ≠ place ((-2 : ℚ) + 15) 1280 720 320 180 := by
  constructor
  · have hm : fmod t 15 ≤ 0 := fmod_nonpos_of_neg t ht
    simp only [place]
    rw [if_pos (by linarith : fmod t 15 < 3)]
  · have h1 : fmod (-2 : ℚ) 15 = -2 := fmod_neg_of_gt _ (by norm_num) (by norm_num)
    have h2 : ((-2 : ℚ) + 15) = 13 := by norm_num
    rw [h2]
    simp only [place, h1]
    norm_num [fmod, trunc]

/-- Witness for C9 at `t = -7`. -/
theorem C9_negative_bucket_A_witness :
    place (-7 : ℚ) 1280 720 320 180 = (1280 - 5 * 320 / 4, (720 - 180) / 2) ∧
    place (-2 : ℚ) 1280 720 320 180 ≠ place ((-2 : ℚ) + 15) 1280 720 320 180 :=
  C9_negative_bucket_A (-7) 1280 720 320 180 (by norm_num)

/-- Claim C10: for every `t ≥ 0` and every geometry, the FFmpeg overlay
filter's `x` and `y` expressions compute the same position as the
canvas callback's if/else chain. -/
theorem C10_overlay_matches_canvas (t W H w h : ℚ) (ht : 0 ≤ t) :
    (overlayX t W w, overlayY t H h) = place t W H w h := by
  simp only [overlayX, overlayY, place]
  split_ifs <;> rfl

/-- Witness for C10 at `t = 4`. -/
theorem C10_overlay_matches_canvas_witness :
    (overlayX 4 1280 320, overlayY 4 720 180) = place 4 1280 720 320 180 :=
  C10_overlay_matches_canvas 4 1280 720 320 180 (by norm_num)

end Soramarker
